import Mathlib

/-!
Shallow embedding of `src/sec_form_d_puller.py` (SEC EDGAR Form D puller).

Python dict-shaped records become Lean structures; the parsed XML document is
modelled as an association list from element path to element text (the image of
`root.find(".//path")` after the namespace strip); Python exceptions become
`Except`/`Option`; `datetime` values carry only the calendar date, which is all
the embedded code inspects.  Machine arithmetic is exact (`Nat`/`Int`): the one
lossy spot in the source, `int(float(clean))`, is modelled as exact decimal
truncation, which agrees with CPython for every magnitude the claims exercise.
-/

namespace SecFormD

/-! ### Python string primitives

Each `py*` helper below models the corresponding Python `str` method on the
character list of the string.  They are structurally recursive so that a
concrete witness evaluates inside the kernel. -/

/-- Python `a or b` on strings: first operand if truthy (non-empty), else second. -/
def pyOr (a b : String) : String := if a = "" then b else a

/-- Whitespace in the sense of Python `str.strip()`. -/
def pyIsSpace (c : Char) : Bool :=
  c == ' ' || c == '\t' || c == '\n' || c == '\r' || c == '\x0b' || c == '\x0c'

/-- Python `s.strip()`: drop leading and trailing whitespace. -/
def pyStrip (s : String) : String :=
  String.mk (((s.toList.dropWhile pyIsSpace).reverse.dropWhile pyIsSpace).reverse)

/-- Inner loop of `pySplitChar`: `acc` holds the current field reversed. -/
def pySplitCharAux (sep : Char) : List Char → List Char → List String
  | [], acc => [String.mk acc.reverse]
  | c :: rest, acc =>
    if c == sep then String.mk acc.reverse :: pySplitCharAux sep rest []
    else pySplitCharAux sep rest (c :: acc)

/-- Python `s.split(sep)` for a one-character separator (the only separators
the source uses with `split` are `'|'`, `'/'`, `':'`, `'-'` and `'\n'`):
splits at every occurrence, keeping empty fields, and yields `[""]` on `""`. -/
def pySplitChar (sep : Char) (s : String) : List String :=
  pySplitCharAux sep s.toList []

/-- Python `s.startswith(pre)`. -/
def pyStartsWith (pre s : String) : Bool :=
  pre.toList.isPrefixOf s.toList

/-- Python `c in s` for a single character. -/
def pyContainsChar (s : String) (c : Char) : Bool :=
  s.toList.contains c

/-- Python `s.lower()` (ASCII case fold, which is all the compared texts use). -/
def pyLower (s : String) : String :=
  String.mk (s.toList.map Char.toLower)

/-- Fuel-driven loop of `pyReplace`: replace left-to-right, non-overlapping,
resuming after each replacement; the fuel is an upper bound on the steps. -/
def pyReplaceAux (pat repl : List Char) : Nat → List Char → List Char
  | _, [] => []
  | 0, l => l
  | fuel + 1, c :: rest =>
    if pat.isPrefixOf (c :: rest) then
      repl ++ pyReplaceAux pat repl fuel ((c :: rest).drop pat.length)
    else
      c :: pyReplaceAux pat repl fuel rest

/-- Python `s.replace(pat, repl)` for a non-empty pattern. -/
def pyReplace (s pat repl : String) : String :=
  if pat.toList = [] then s
  else String.mk (pyReplaceAux pat.toList repl.toList s.toList.length s.toList)

/-- Value of a string of decimal digits. -/
def natOfDigits (cs : List Char) : Nat :=
  cs.foldl (fun acc c => acc * 10 + (c.toNat - 48)) 0

/-- Python `int(s)` on an all-digit string, `none` otherwise (the strptime
field patterns below only ever feed it digit strings). -/
def pyDigitsToNat (s : String) : Option Nat :=
  if s.toList ≠ [] ∧ s.toList.all Char.isDigit then some (natOfDigits s.toList)
  else none

/-- Model of `re.sub(r'[^\d.]', '', text)` in `find_number`: keep only decimal
digits and the dot. -/
def stripNonNumeric (s : String) : String :=
  String.mk (s.toList.filter (fun c => c.isDigit || c == '.'))

/-- Model of `int(float(s))` on a digits-and-dots string: CPython `float` accepts
such a string iff it has at least one digit and at most one dot, and `int`
truncates toward zero, giving the value of the digit run before the dot.
Inputs with any other character make `float` raise, modelled as `none`. -/
def pyIntFloat (s : String) : Option Nat :=
  let cs := s.toList
  if cs.all (fun c => c.isDigit || c == '.') ∧ cs.any Char.isDigit ∧
      (cs.filter (fun c => c == '.')).length ≤ 1 then
    some (natOfDigits (cs.takeWhile (fun c => c ≠ '.')))
  else
    none

/-! ## Dates: model of `datetime.strptime(s, "%Y-%m-%d")` -/

/-- Calendar date, the only part of a Python `datetime` the embedded code reads. -/
structure PDate where
  year : Nat
  month : Nat
  day : Nat
deriving DecidableEq, Repr

/-- Lexicographic order on dates, matching `datetime` comparison at equal times. -/
def PDate.before (a b : PDate) : Bool :=
  decide (a.year < b.year) ||
    (decide (a.year = b.year) &&
      (decide (a.month < b.month) ||
        (decide (a.month = b.month) && decide (a.day < b.day))))

def isLeapYear (y : Nat) : Bool :=
  (decide (y % 4 = 0) && decide (y % 100 ≠ 0)) || decide (y % 400 = 0)

def daysInMonth (y m : Nat) : Nat :=
  if m = 2 then (if isLeapYear y then 29 else 28)
  else if m = 4 ∨ m = 6 ∨ m = 9 ∨ m = 11 then 30
  else 31

/-- Model of the `%Y` field: exactly four digits, and `datetime` rejects year 0. -/
def parseYearField (s : String) : Option Nat :=
  if s.length = 4 then
    match pyDigitsToNat s with
    | some n => if 1 ≤ n then some n else none
    | none => none
  else none

/-- Model of the `%m`/`%d` fields: one or two digits with value in `[1, hi]`
(CPython's `_strptime` regexps admit exactly these strings). -/
def parseTwoDigitField (hi : Nat) (s : String) : Option Nat :=
  if s.length = 1 ∨ s.length = 2 then
    match pyDigitsToNat s with
    | some n => if 1 ≤ n ∧ n ≤ hi then some n else none
    | none => none
  else none

/-- Model of `datetime.strptime(s, "%Y-%m-%d")`: `none` when strptime raises
`ValueError` (wrong shape, field out of range, or day invalid for the month). -/
def strptimeYMD (s : String) : Option PDate :=
  match pySplitChar '-' s with
  | [ys, ms, ds] =>
    match parseYearField ys, parseTwoDigitField 12 ms, parseTwoDigitField 31 ds with
    | some y, some m, some d =>
      if d ≤ daysInMonth y m then some ⟨y, m, d⟩ else none
    | _, _, _ => none
  | _ => none

/-! ## Data model -/

/-- A discovered candidate filing (the dicts built by `get_filings_from_efts`
and `parse_full_index`). -/
structure Filing where
  company_name : String
  form_type : String
  cik : String
  date_filed : String
  filename : String
  accession_number : String
deriving DecidableEq, Repr

/-- The enriched record built by `parse_form_d_xml`. -/
structure OfferingRecord where
  company_name : String
  cik : String
  entity_type : String
  jurisdiction : String
  year_of_incorporation : String
  street : String
  city : String
  state : String
  zip : String
  phone : String
  total_offering_amount : Int
  total_amount_sold : Int
  total_remaining : Int
  is_indefinite : Bool
  industry_group : String
  investment_fund_type : String
  is_equity : Bool
  is_debt : Bool
  date_of_first_sale : String
  date_filed : String
  form_type : String
  accession_number : String
  pulled_at : String
  source : String
deriving DecidableEq, Repr

/-- The module-level `EXCLUDED_INDUSTRIES` list. -/
def EXCLUDED_INDUSTRIES : List String :=
  ["Pooled Investment Fund",
   "Hedge Fund",
   "Private Equity Fund",
   "Venture Capital Fund",
   "Real Estate",
   "REITS & Finance",
   "Banking & Financial Services",
   "Insurance",
   "Oil & Gas",
   "Mining"]

/-! ## `parse_full_index` -/

/-- One data line of the master index: the `len(parts) >= 5` body of the loop in
`parse_full_index`.  Returns `none` exactly when the Python code hits a
`continue` (too few fields, non-D form type, unparsable or out-of-range date). -/
def parseIndexLine (start_date end_date : PDate) (line : String) : Option Filing :=
  let parts := pySplitChar '|' line
  if parts.length ≥ 5 then
    let cik := pyStrip (parts.getD 0 "")
    let company_name := pyStrip (parts.getD 1 "")
    let form_type := pyStrip (parts.getD 2 "")
    let date_filed := pyStrip (parts.getD 3 "")
    let filename := pyStrip (parts.getD 4 "")
    if form_type ≠ "D" ∧ form_type ≠ "D/A" then none
    else
      match strptimeYMD date_filed with
      | none => none
      | some filing_date =>
        if filing_date.before start_date ∨ end_date.before filing_date then none
        else
          some { company_name := company_name
                 form_type := form_type
                 cik := cik
                 date_filed := date_filed
                 filename := filename
                 accession_number :=
                   if filename ≠ "" then
                     pyReplace ((pySplitChar '/' filename).getLastD "") ".txt" ""
                   else "" }
  else none

/-- The line loop of `parse_full_index`: `started` is the `data_started` flag. -/
def parseIndexLines (start_date end_date : PDate) :
    Bool → List String → List Filing
  | _, [] => []
  | started, line :: rest =>
    if pyStartsWith "-----" line then
      parseIndexLines start_date end_date true rest
    else if ¬started ∨ pyStrip line = "" then
      parseIndexLines start_date end_date started rest
    else
      match parseIndexLine start_date end_date line with
      | some f => f :: parseIndexLines start_date end_date started rest
      | none => parseIndexLines start_date end_date started rest

/-- Model of `parse_full_index(index_content, start_date, end_date)`. -/
def parse_full_index (index_content : String) (start_date end_date : PDate) :
    List Filing :=
  parseIndexLines start_date end_date false (pySplitChar '\n' index_content)

/-! ## `filter_by_funding_range` -/

/-- The loop body of `filter_by_funding_range` for one record: `false` exactly
when the Python code hits one of its three `continue` statements. -/
def keepRecord (mn mx : Int) (f : OfferingRecord) : Bool :=
  let amount := f.total_offering_amount
  if amount = -1 then false
  else if ¬(mn ≤ amount ∧ amount ≤ mx) then false
  else if f.industry_group ∈ EXCLUDED_INDUSTRIES ∨ f.investment_fund_type ≠ "" then false
  else true

/-- Model of `filter_by_funding_range(filings, min_amount, max_amount)`: the
loop appends the survivors in input order, i.e. a filter. -/
def filter_by_funding_range (filings : List OfferingRecord) (mn mx : Int) :
    List OfferingRecord :=
  filings.filter (keepRecord mn mx)

/-! ## `parse_form_d_xml`

The XML tree after the namespace strip is modelled as an association list from
element path (the `path` argument of the `find_text` helper) to the element's
raw text; an absent element, or one with `text = None`, is an absent key. -/

/-- A parsed XML document: path ↦ raw element text. -/
def Doc := List (String × String)

/-- The `find_text` helper of `parse_form_d_xml`: trimmed element text, or the
default `""` when the element is absent or its text is empty. -/
def find_text (doc : Doc) (path : String) : String :=
  match List.lookup path doc with
  | some t => if t = "" then "" else pyStrip t
  | none => ""

/-- The `find_number` helper of `parse_form_d_xml`: strip every character that
is not a digit or a dot, then `int(float(...))`; any conversion failure (or an
empty text) yields the default 0. -/
def find_number (doc : Doc) (path : String) : Int :=
  let text := find_text doc path
  if text ≠ "" then
    match pyIntFloat (stripNonNumeric text) with
    | some n => (n : Int)
    | none => 0
  else 0

/-- Python `s.lower() in ['true', 'yes', '1']`. -/
def isTruthyText (s : String) : Bool :=
  decide (pyLower s ∈ ["true", "yes", "1"])

/-- The accession-number expression of the result dict built by
`parse_form_d_xml`: `filename.split('/')[-2] if '/' in filename else ''`. -/
def accessionFromFilename (filename : String) : String :=
  if pyContainsChar filename '/' then
    let parts := pySplitChar '/' filename
    parts.getD (parts.length - 2) ""
  else ""

/-- The success path of `parse_form_d_xml(xml_content, filing)`: builds the
result dict from the parsed document and the originating filing reference
(`now` stands for `datetime.now().isoformat()`). -/
def parse_form_d_xml (doc : Doc) (filing : Filing) (now : String) : OfferingRecord :=
  let issuer_name :=
    pyOr (pyOr (find_text doc "primaryIssuer/entityName") (find_text doc "issuerName"))
      filing.company_name
  let total_offering0 := find_number doc "offeringSalesAmounts/totalOfferingAmount"
  let total_sold := find_number doc "offeringSalesAmounts/totalAmountSold"
  let total_remaining := find_number doc "offeringSalesAmounts/totalRemaining"
  let total_offering :=
    if total_offering0 = 0 then
      let indefinite := find_text doc "offeringSalesAmounts/indefiniteSecuritiesIncluded"
      if indefinite ≠ "" ∧ isTruthyText indefinite then (-1 : Int) else total_offering0
    else total_offering0
  { company_name := issuer_name
    cik := filing.cik
    entity_type := find_text doc "primaryIssuer/entityType"
    jurisdiction := find_text doc "primaryIssuer/jurisdictionOfInc"
    year_of_incorporation := find_text doc "primaryIssuer/yearOfInc/value"
    street := find_text doc "primaryIssuer/issuerAddress/street1"
    city := find_text doc "primaryIssuer/issuerAddress/city"
    state := find_text doc "primaryIssuer/issuerAddress/stateOrCountry"
    zip := find_text doc "primaryIssuer/issuerAddress/zipCode"
    phone := find_text doc "primaryIssuer/issuerPhoneNumber"
    total_offering_amount := total_offering
    total_amount_sold := total_sold
    total_remaining := total_remaining
    is_indefinite := decide (total_offering = -1)
    industry_group := find_text doc "industryGroup/industryGroupType"
    investment_fund_type := find_text doc "industryGroup/investmentFundInfo/investmentFundType"
    is_equity := isTruthyText (find_text doc "typesOfSecuritiesOffered/isEquityType")
    is_debt := isTruthyText (find_text doc "typesOfSecuritiesOffered/isDebtType")
    date_of_first_sale := find_text doc "dateOfFirstSale/value"
    date_filed := filing.date_filed
    form_type := filing.form_type
    accession_number := accessionFromFilename filing.filename
    pulled_at := now
    source := "SEC_EDGAR_FORM_D" }

/-! ## `get_filings_from_efts`: the hit-mapping loop -/

/-- One hit of the EFTS response, with `dict.get` absence modelled as `none`
(list-valued fields default to `[]` in the source, so they are plain lists). -/
structure EftsHit where
  display_names : List String
  ciks : List String
  form : Option String
  file_date : Option String
  file_name : Option String
  id : Option String
deriving DecidableEq, Repr

/-- The `for hit in hits` mapping loop of `get_filings_from_efts` (the part of
the function after a 200 response has been decoded). -/
def get_filings_from_efts (hits : List EftsHit) : List Filing :=
  hits.map (fun hit =>
    let company_name := match hit.display_names with
      | [] => "Unknown"
      | n :: _ => n
    let cik := match hit.ciks with
      | [] => ""
      | c :: _ => c
    let file_id := hit.id.getD ""
    let accession :=
      if pyContainsChar file_id ':' then (pySplitChar ':' file_id).getD 0 ""
      else ""
    { company_name := company_name
      form_type := hit.form.getD "D"
      cik := cik
      date_filed := hit.file_date.getD ""
      filename := hit.file_name.getD ""
      accession_number := accession })

/-! ## `get_recent_form_d_filings`: the two-tier discovery orchestration

The two network-backed helpers are abstracted by their outcomes: an
`Except String (List Filing)` is `ok` when the Python call returns and `error`
when it raises. -/

/-- True when the modelled call raised. -/
def callRaised (r : Except String (List Filing)) : Bool :=
  match r with
  | .error _ => true
  | .ok _ => false

/-- Model of `get_recent_form_d_filings`: `filings` starts `[]`; the EFTS
result is returned only when non-empty; otherwise (empty or raised) the
full-index fallback runs, and its own failure leaves `filings` unchanged. -/
def get_recent_form_d_filings (eftsResult fullIndexResult : Except String (List Filing)) :
    List Filing :=
  match eftsResult with
  | .ok filings =>
    if filings.isEmpty then
      match fullIndexResult with
      | .ok filings2 => filings2
      | .error _ => filings
    else filings
  | .error _ =>
    match fullIndexResult with
    | .ok filings2 => filings2
    | .error _ => []

/-! ## `fetch_form_d_details`: the XML-link scan on a reachable index page -/

/-- Model of `re.search(r'href="([^"]*(?<!xsl[^/]*)/primary_doc\.xml)"', page,
re.IGNORECASE)` at line 316.  CPython's `re` module requires lookbehind
patterns of fixed width, and `(?<!xsl[^/]*)` is variable-width, so compiling
the pattern raises `re.error("look-behind requires fixed-width pattern")`
before the page text is examined: the search errors on every input. -/
def searchPrimaryDocXml (_page : String) : Except String (Option String) :=
  .error "look-behind requires fixed-width pattern"

/-- The link-scan portion of `fetch_form_d_details` (lines 314-336) for a
reachable (status-200) index page, returning the selected XML link.  The first
`re.search` raises `re.error` while compiling its pattern, the exception
propagates to the function's enclosing `except Exception` handler, and the
function returns `None`; the `finditer` fallback and the URL resolution are
dead code (their branches below are unreachable for every page). -/
def fetch_form_d_details_scan (page : String) : Option String :=
  match searchPrimaryDocXml page with
  | .error _ => none
  | .ok (some link) => some link
  | .ok none => none

/-! ## Concrete sample values used by witnesses and counterexamples -/

/-- A well-formed filing reference, as the master-index path would build it. -/
def sampleFiling : Filing :=
  { company_name := "Acme Corp"
    form_type := "D"
    cik := "1000045"
    date_filed := "2024-01-05"
    filename := "edgar/data/1000045/000100004524000001/primary_doc.xml"
    accession_number := "0001000045-24-000001" }

/-- A master-index document whose data line separates its five fields by runs
of two or more spaces instead of pipes. -/
def wsIndexDoc : String :=
  "Description: master index\n-----------------------------------------\n1000045  Acme Corp  D  2024-01-05  edgar/data/1000045/0001000045-24-000001.txt\n"

/-- A pipe-delimited master-index document with one Form D line in range, one
non-D line, and one line whose date is not zero-padded. -/
def pipeIndexDoc : String :=
  "CIK|Company Name|Form Type|Date Filed|Filename\n-----------------------------------------\n1000045|Acme Corp|D|2024-01-05|edgar/data/1000045/0001000045-24-000001.txt\n900|Beta LLC|10-K|2024-01-06|edgar/data/900/x.txt\n"

/-- The filing parsed out of the first data line of `pipeIndexDoc`. -/
def acmeFiling : Filing :=
  { company_name := "Acme Corp"
    form_type := "D"
    cik := "1000045"
    date_filed := "2024-01-05"
    filename := "edgar/data/1000045/0001000045-24-000001.txt"
    accession_number := "0001000045-24-000001" }

/-! ## Theorems for the claims -/

/-- C1: for every record list and every bounds pair `mn ≤ mx`,
`filter_by_funding_range` returns exactly the subsequence, in original input
order, of records whose total_offering_amount `a` satisfies `mn ≤ a ≤ mx` and
`a ≠ -1`, whose industry_group is outside `EXCLUDED_INDUSTRIES`, and whose
investment_fund_type is empty; a record is kept iff all four conditions hold. -/
theorem c1_filter_by_funding_range_spec (filings : List OfferingRecord)
    (mn mx : Int) (_hbounds : mn ≤ mx) :
    filter_by_funding_range filings mn mx =
      filings.filter (fun r =>
        decide (mn ≤ r.total_offering_amount) &&
          decide (r.total_offering_amount ≤ mx) &&
          decide (r.total_offering_amount ≠ -1) &&
          decide (r.industry_group ∉ EXCLUDED_INDUSTRIES) &&
          decide (r.investment_fund_type = "")) := by
  unfold filter_by_funding_range
  apply List.filter_congr
  intro r _
  unfold keepRecord
  by_cases h1 : r.total_offering_amount = -1 <;>
    by_cases h2 : mn ≤ r.total_offering_amount ∧ r.total_offering_amount ≤ mx <;>
      by_cases h3 : r.industry_group ∈ EXCLUDED_INDUSTRIES ∨ r.investment_fund_type ≠ ""
  all_goals simp_all
  all_goals tauto

/-- Witness for C1 at a concrete two-record list and the default bounds. -/
theorem c1_filter_by_funding_range_spec_witness :
    (2000000 : Int) ≤ 6000000 ∧
      filter_by_funding_range
          [{ company_name := "Acme Corp", cik := "1000045", entity_type := "",
             jurisdiction := "", year_of_incorporation := "", street := "",
             city := "", state := "", zip := "", phone := "",
             total_offering_amount := 3000000, total_amount_sold := 0,
             total_remaining := 0, is_indefinite := false,
             industry_group := "Technology", investment_fund_type := "",
             is_equity := true, is_debt := false, date_of_first_sale := "",
             date_filed := "2024-01-05", form_type := "D",
             accession_number := "", pulled_at := "", source := "" },
           { company_name := "Big Fund", cik := "2", entity_type := "",
             jurisdiction := "", year_of_incorporation := "", street := "",
             city := "", state := "", zip := "", phone := "",
             total_offering_amount := 3000000, total_amount_sold := 0,
             total_remaining := 0, is_indefinite := false,
             industry_group := "Pooled Investment Fund",
             investment_fund_type := "Venture Capital Fund",
             is_equity := true, is_debt := false, date_of_first_sale := "",
             date_filed := "2024-01-05", form_type := "D",
             accession_number := "", pulled_at := "", source := "" }]
          2000000 6000000 =
        [{ company_name := "Acme Corp", cik := "1000045", entity_type := "",
           jurisdiction := "", year_of_incorporation := "", street := "",
           city := "", state := "", zip := "", phone := "",
           total_offering_amount := 3000000, total_amount_sold := 0,
           total_remaining := 0, is_indefinite := false,
           industry_group := "Technology", investment_fund_type := "",
           is_equity := true, is_debt := false, date_of_first_sale := "",
           date_filed := "2024-01-05", form_type := "D",
           accession_number := "", pulled_at := "", source := "" }] :=
  ⟨by decide,
   by rw [c1_filter_by_funding_range_spec _ _ _ (by decide)]; decide⟩

/-- C9: `filter_by_funding_range` is idempotent for fixed bounds. -/
theorem c9_filter_by_funding_range_idempotent (filings : List OfferingRecord)
    (mn mx : Int) :
    filter_by_funding_range (filter_by_funding_range filings mn mx) mn mx =
      filter_by_funding_range filings mn mx := by
  unfold filter_by_funding_range
  rw [List.filter_filter]
  simp

/-- C3: discovery uses the full-text search result verbatim when it succeeds
non-empty; on a raise or an empty result it falls back to the full-index path;
and when both paths fail it returns `[]` instead of raising (totality of
`get_recent_form_d_filings` models that no error reaches the driver). -/
theorem c3_discovery_fallback (eftsResult fullIndexResult : Except String (List Filing)) :
    (∀ l, eftsResult = .ok l → l ≠ [] →
        get_recent_form_d_filings eftsResult fullIndexResult = l) ∧
      ((callRaised eftsResult = true ∨ eftsResult = .ok []) →
        (∀ l, fullIndexResult = .ok l →
            get_recent_form_d_filings eftsResult fullIndexResult = l) ∧
          (callRaised fullIndexResult = true →
            get_recent_form_d_filings eftsResult fullIndexResult = [])) := by
  cases eftsResult with
  | error e =>
    cases fullIndexResult with
    | error e2 => simp [get_recent_form_d_filings, callRaised]
    | ok l2 => simp [get_recent_form_d_filings, callRaised]
  | ok l =>
    cases fullIndexResult with
    | error e2 =>
      cases l with
      | nil => simp [get_recent_form_d_filings, callRaised]
      | cons a t => simp [get_recent_form_d_filings, callRaised]
    | ok l2 =>
      cases l with
      | nil => simp [get_recent_form_d_filings, callRaised]
      | cons a t => simp [get_recent_form_d_filings, callRaised]

/-- Witness for C3: a non-empty search result is returned verbatim even though
the fallback path raised. -/
theorem c3_discovery_fallback_witness :
    get_recent_form_d_filings (Except.ok [sampleFiling]) (Except.error "HTTP 403") =
      [sampleFiling] :=
  (c3_discovery_fallback (Except.ok [sampleFiling]) (Except.error "HTTP 403")).1
    [sampleFiling] rfl (by simp)

/-- C2: when the parsed total offering amount is exactly 0 (also when the
element is absent), a companion indefiniteSecuritiesIncluded text equal to
true/yes/1 up to case yields total_offering_amount = -1 with is_indefinite
true, and any other companion text leaves 0 with is_indefinite false. -/
theorem c2_indefinite_offering_rule (doc : Doc) (filing : Filing) (now : String)
    (h0 : find_number doc "offeringSalesAmounts/totalOfferingAmount" = 0) :
    (isTruthyText (find_text doc "offeringSalesAmounts/indefiniteSecuritiesIncluded") = true →
        (parse_form_d_xml doc filing now).total_offering_amount = -1 ∧
          (parse_form_d_xml doc filing now).is_indefinite = true) ∧
      (isTruthyText (find_text doc "offeringSalesAmounts/indefiniteSecuritiesIncluded") = false →
        (parse_form_d_xml doc filing now).total_offering_amount = 0 ∧
          (parse_form_d_xml doc filing now).is_indefinite = false) := by
  constructor
  · intro ht
    have hne : find_text doc "offeringSalesAmounts/indefiniteSecuritiesIncluded" ≠ "" := by
      intro he
      rw [he] at ht
      exact absurd ht (by decide)
    unfold parse_form_d_xml
    simp [h0, hne, ht]
  · intro hf
    unfold parse_form_d_xml
    simp [h0, hf]

/-- Witness for C2: a document with no totalOfferingAmount element and the
companion flag set to "True". -/
theorem c2_indefinite_offering_rule_witness :
    (parse_form_d_xml [("offeringSalesAmounts/indefiniteSecuritiesIncluded", "True")]
          sampleFiling "2024-01-05T12:00:00").total_offering_amount = -1 ∧
      (parse_form_d_xml [("offeringSalesAmounts/indefiniteSecuritiesIncluded", "True")]
          sampleFiling "2024-01-05T12:00:00").is_indefinite = true :=
  (c2_indefinite_offering_rule
      [("offeringSalesAmounts/indefiniteSecuritiesIncluded", "True")]
      sampleFiling "2024-01-05T12:00:00" (by decide)).1 (by decide)

/-- C7: find_number strips every character that is not a digit or a dot before
converting, so "$1,234,567.00" yields 1234567; the conversion result is fully
determined by the stripped text, and every stripped text the conversion
rejects yields 0 (find_number is total by construction, so no exception
escapes). -/
theorem c7_find_number_spec :
    find_number [("offeringSalesAmounts/totalOfferingAmount", "$1,234,567.00")]
        "offeringSalesAmounts/totalOfferingAmount" = 1234567 ∧
      (∀ (doc : Doc) (path : String) (n : Nat),
        pyIntFloat (stripNonNumeric (find_text doc path)) = some n →
          find_number doc path = (n : Int)) ∧
      (∀ (doc : Doc) (path : String),
        pyIntFloat (stripNonNumeric (find_text doc path)) = none →
          find_number doc path = 0) := by
  refine ⟨by decide, ?_, ?_⟩
  · intro doc path n h
    unfold find_number
    by_cases ht : find_text doc path = ""
    · rw [ht] at h
      rw [show pyIntFloat (stripNonNumeric "") = none from by decide] at h
      cases h
    · simp [ht, h]
  · intro doc path h
    unfold find_number
    by_cases ht : find_text doc path = ""
    · simp [ht]
    · simp [ht, h]

/-- Witness for C7: a text whose stripped form "" fails the conversion. -/
theorem c7_find_number_spec_witness :
    find_number [("offeringSalesAmounts/totalAmountSold", "abc")]
        "offeringSalesAmounts/totalAmountSold" = 0 :=
  c7_find_number_spec.2.2 [("offeringSalesAmounts/totalAmountSold", "abc")]
    "offeringSalesAmounts/totalAmountSold" (by decide)

/-! ### List decomposition lemmas for the accession-number claim -/

lemma pySplitCharAux_length (sep : Char) (cs : List Char) :
    ∀ acc, (pySplitCharAux sep cs acc).length =
      (cs.filter (fun c => c == sep)).length + 1 := by
  induction cs with
  | nil => intro acc; simp [pySplitCharAux]
  | cons c rest ih =>
    intro acc
    by_cases h : (c == sep) = true
    · simp [pySplitCharAux, h, ih]
    · simp [pySplitCharAux, h, ih]

lemma exists_last_two {α : Type} (l : List α) (h : 2 ≤ l.length) :
    ∃ xs a b, l = xs ++ [a, b] := by
  cases hr : l.reverse with
  | nil =>
    rw [← l.reverse_reverse, hr] at h
    simp at h
  | cons b t =>
    cases t with
    | nil =>
      rw [← l.reverse_reverse, hr] at h
      simp at h
    | cons a t2 =>
      refine ⟨t2.reverse, a, b, ?_⟩
      rw [← l.reverse_reverse, hr]
      simp

lemma pySplitChar_length_ge_two (sep : Char) (s : String)
    (h : pyContainsChar s sep = true) :
    2 ≤ (pySplitChar sep s).length := by
  unfold pyContainsChar at h
  unfold pySplitChar
  rw [pySplitCharAux_length]
  have hm : sep ∈ s.toList := by
    simpa using h
  have hmf : sep ∈ s.toList.filter (fun c => c == sep) := by
    simp only [List.mem_filter]
    exact ⟨hm, by simp⟩
  have := List.length_pos.mpr (List.ne_nil_of_mem hmf)
  omega

lemma getD_last_two {α : Type} (xs : List α) (a b d : α) :
    (xs ++ [a, b]).getD ((xs ++ [a, b]).length - 2) d = a := by
  have hlen : (xs ++ [a, b]).length - 2 = xs.length := by
    simp
  rw [hlen, List.getD_eq_getElem?_getD, List.getElem?_append_right (Nat.le_refl _)]
  simp

/-- C10: the accession_number of the record built by parse_form_d_xml is
derived solely from the originating filing's filename: for a filename without
'/' it is "", for a filename with '/' it is the second-to-last '/'-separated
segment, and the filing's own accession_number field is never consulted. -/
theorem c10_accession_number_from_filename (doc : Doc) (filing : Filing) (now : String) :
    (pyContainsChar filing.filename '/' = false →
        (parse_form_d_xml doc filing now).accession_number = "") ∧
      (pyContainsChar filing.filename '/' = true →
        ∃ xs a b, pySplitChar '/' filing.filename = xs ++ [a, b] ∧
          (parse_form_d_xml doc filing now).accession_number = a) ∧
      (∀ acc : String,
        (parse_form_d_xml doc { filing with accession_number := acc } now).accession_number =
          (parse_form_d_xml doc filing now).accession_number) := by
  refine ⟨?_, ?_, fun acc => rfl⟩
  · intro hc
    show accessionFromFilename filing.filename = ""
    unfold accessionFromFilename
    simp [hc]
  · intro hc
    obtain ⟨xs, a, b, hsplit⟩ :=
      exists_last_two _ (pySplitChar_length_ge_two '/' filing.filename hc)
    refine ⟨xs, a, b, hsplit, ?_⟩
    show accessionFromFilename filing.filename = a
    unfold accessionFromFilename
    rw [if_pos hc, hsplit, getD_last_two]

/-- Witness for C10: a slash-free filename yields an empty accession number. -/
theorem c10_accession_number_from_filename_witness :
    (parse_form_d_xml [] { sampleFiling with filename := "primary_doc.xml" }
        "2024-01-05T12:00:00").accession_number = "" :=
  (c10_accession_number_from_filename []
      { sampleFiling with filename := "primary_doc.xml" } "2024-01-05T12:00:00").1
    (by decide)

/-! ### Index-parser lemmas for the malformed-line and format claims -/

lemma parseIndexLine_none_of_malformed (s e : PDate) (line : String)
    (h : (pySplitChar '|' line).length < 5 ∨
      strptimeYMD (pyStrip ((pySplitChar '|' line).getD 3 "")) = none) :
    parseIndexLine s e line = none := by
  unfold parseIndexLine
  rcases h with h | h
  · rw [if_neg (by omega)]
  · by_cases h5 : (pySplitChar '|' line).length ≥ 5
    · rw [if_pos h5]
      simp only [h]
      split
      · rfl
      · rfl
    · rw [if_neg h5]

/-- Step equation of the line loop, for rewriting one side at a time. -/
lemma parseIndexLines_cons (s e : PDate) (b : Bool) (line : String)
    (rest : List String) :
    parseIndexLines s e b (line :: rest) =
      if pyStartsWith "-----" line then parseIndexLines s e true rest
      else if ¬b ∨ pyStrip line = "" then parseIndexLines s e b rest
      else
        match parseIndexLine s e line with
        | some f => f :: parseIndexLines s e b rest
        | none => parseIndexLines s e b rest := rfl

lemma parseIndexLines_skip (s e : PDate) (line : String)
    (hsep : pyStartsWith "-----" line = false)
    (hnone : parseIndexLine s e line = none) :
    ∀ (pre : List String) (b : Bool) (post : List String),
      parseIndexLines s e b (pre ++ line :: post) =
        parseIndexLines s e b (pre ++ post) := by
  intro pre
  induction pre with
  | nil =>
    intro b post
    simp only [List.nil_append]
    rw [parseIndexLines_cons, if_neg (by simp [hsep])]
    by_cases hb : ¬b ∨ pyStrip line = ""
    · rw [if_pos hb]
    · rw [if_neg hb, hnone]
  | cons hd tl ih =>
    intro b post
    simp only [List.cons_append]
    rw [parseIndexLines_cons, parseIndexLines_cons]
    by_cases h1 : pyStartsWith "-----" hd = true
    · rw [if_pos h1, if_pos h1, ih]
    · rw [if_neg h1, if_neg h1]
      by_cases h2 : ¬b ∨ pyStrip hd = ""
      · rw [if_pos h2, if_pos h2, ih]
      · rw [if_neg h2, if_neg h2]
        cases parseIndexLine s e hd with
        | some g => exact congrArg (fun l => g :: l) (ih b post)
        | none => exact ih b post

lemma parseIndexLines_nil_of_all_none (s e : PDate) :
    ∀ (lines : List String) (b : Bool),
      (∀ line ∈ lines, parseIndexLine s e line = none) →
      parseIndexLines s e b lines = [] := by
  intro lines
  induction lines with
  | nil => intro b _; rfl
  | cons hd tl ih =>
    intro b h
    have hhd : parseIndexLine s e hd = none := h hd (List.mem_cons_self hd tl)
    have htl : ∀ line ∈ tl, parseIndexLine s e line = none :=
      fun line hl => h line (List.mem_cons_of_mem hd hl)
    rw [parseIndexLines_cons]
    by_cases h1 : pyStartsWith "-----" hd = true
    · rw [if_pos h1]
      exact ih true htl
    · rw [if_neg h1]
      by_cases h2 : ¬b ∨ pyStrip hd = ""
      · rw [if_pos h2]
        exact ih b htl
      · rw [if_neg h2, hhd]
        exact ih b htl

lemma parseIndexLines_mem_source (s e : PDate) :
    ∀ (lines : List String) (b : Bool) (f : Filing),
      f ∈ parseIndexLines s e b lines →
      ∃ line, parseIndexLine s e line = some f := by
  intro lines
  induction lines with
  | nil => intro b f h; cases h
  | cons hd tl ih =>
    intro b f h
    rw [parseIndexLines_cons] at h
    by_cases h1 : pyStartsWith "-----" hd = true
    · rw [if_pos h1] at h
      exact ih true f h
    · rw [if_neg h1] at h
      by_cases h2 : ¬b ∨ pyStrip hd = ""
      · rw [if_pos h2] at h
        exact ih b f h
      · rw [if_neg h2] at h
        cases hp : parseIndexLine s e hd with
        | some g =>
          rw [hp] at h
          have h' : f ∈ g :: parseIndexLines s e b tl := h
          rcases List.mem_cons.mp h' with he | hm2
          · exact ⟨hd, by rw [hp, he]⟩
          · exact ih b f hm2
        | none =>
          rw [hp] at h
          exact ih b f h

lemma parseIndexLine_form_type (s e : PDate) (line : String) (f : Filing)
    (h : parseIndexLine s e line = some f) :
    f.form_type = "D" ∨ f.form_type = "D/A" := by
  simp only [parseIndexLine] at h
  repeat' split at h
  all_goals try cases h
  all_goals change pyStrip _ = "D" ∨ pyStrip _ = "D/A"
  all_goals tauto

/-- C8: parse_full_index is total (it never raises by construction), and a
non-separator data line with fewer than 5 pipe-delimited fields or with a
date field strptime rejects is silently skipped: removing it from the line
list leaves the parse of all other lines unchanged. -/
theorem c8_malformed_line_skipped (s e : PDate) (b : Bool)
    (pre post : List String) (line : String)
    (hsep : pyStartsWith "-----" line = false)
    (hbad : (pySplitChar '|' line).length < 5 ∨
      strptimeYMD (pyStrip ((pySplitChar '|' line).getD 3 "")) = none) :
    parseIndexLines s e b (pre ++ line :: post) =
      parseIndexLines s e b (pre ++ post) :=
  parseIndexLines_skip s e line hsep
    (parseIndexLine_none_of_malformed s e line hbad) pre b post

/-- Witness for C8: a three-field data line between two well-formed lines
contributes nothing. -/
theorem c8_malformed_line_skipped_witness :
    parseIndexLines ⟨2024, 1, 1⟩ ⟨2024, 12, 31⟩ false
        (["CIK|Company Name|Form Type|Date Filed|Filename", "-----"] ++
          "900|Beta LLC|D" ::
            ["1000045|Acme Corp|D|2024-01-05|edgar/data/1000045/0001000045-24-000001.txt"]) =
      parseIndexLines ⟨2024, 1, 1⟩ ⟨2024, 12, 31⟩ false
        (["CIK|Company Name|Form Type|Date Filed|Filename", "-----"] ++
          ["1000045|Acme Corp|D|2024-01-05|edgar/data/1000045/0001000045-24-000001.txt"]) :=
  c8_malformed_line_skipped ⟨2024, 1, 1⟩ ⟨2024, 12, 31⟩ false
    ["CIK|Company Name|Form Type|Date Filed|Filename", "-----"]
    ["1000045|Acme Corp|D|2024-01-05|edgar/data/1000045/0001000045-24-000001.txt"]
    "900|Beta LLC|D" (by decide) (Or.inl (by decide))

/-- C4 counterexample: a master-index document whose data line separates its
five Form D fields by two-or-more consecutive spaces yields no records at all,
although the claim says the entry is still extracted. -/
theorem c4_whitespace_counterexample :
    parse_full_index wsIndexDoc ⟨2024, 1, 1⟩ ⟨2024, 12, 31⟩ = [] := by
  decide

/-- C4 amended: parse_full_index supports only the pipe-delimited format; a
document none of whose lines contains a pipe (the whitespace-delimited
variant) splits every line into a single field, below the 5-field minimum, so
every line is skipped and the parse returns no records. -/
theorem c4_whitespace_format_not_supported (content : String) (s e : PDate)
    (h : ∀ line ∈ pySplitChar '\n' content, (pySplitChar '|' line).length = 1) :
    parse_full_index content s e = [] := by
  unfold parse_full_index
  exact parseIndexLines_nil_of_all_none s e (pySplitChar '\n' content) false
    (fun line hl =>
      parseIndexLine_none_of_malformed s e line (Or.inl (by rw [h line hl]; omega)))

/-- Witness for C4's amended claim at a concrete whitespace-delimited
document. -/
theorem c4_whitespace_format_not_supported_witness :
    parse_full_index "-----\n900  Beta LLC  D  2024-01-06  edgar/data/900/x.txt"
      ⟨2024, 1, 1⟩ ⟨2024, 12, 31⟩ = [] :=
  c4_whitespace_format_not_supported
    "-----\n900  Beta LLC  D  2024-01-06  edgar/data/900/x.txt"
    ⟨2024, 1, 1⟩ ⟨2024, 12, 31⟩ (by decide)

/-- An EFTS hit whose source lacks ciks and file_name and carries a non-D form
type. -/
def badHit : EftsHit :=
  { display_names := ["Unnamed Trust"]
    ciks := []
    form := some "10-K"
    file_date := some "2024-01-05"
    file_name := none
    id := some "0001000045-24-000001:primary_doc.xml" }

/-- C6 counterexample: the EFTS mapping emits a record with an empty cik, an
empty filename and a form type outside {D, D/A} instead of dropping it, so the
stated invariant does not hold for the full-text-search discovery path. -/
theorem c6_invariant_counterexample :
    ∃ f ∈ get_filings_from_efts [badHit],
      f.cik = "" ∧ f.filename = "" ∧ f.form_type ∉ (["D", "D/A"] : List String) := by
  refine ⟨{ company_name := "Unnamed Trust", form_type := "10-K", cik := "",
            date_filed := "2024-01-05", filename := "",
            accession_number := "0001000045-24-000001" }, by decide, by decide⟩

/-- C6 amended: only the form-type component of the invariant is enforced, and
only on the master-index path: every record parse_full_index returns has
form_type "D" or "D/A"; neither path checks cik or filename for emptiness, and
the EFTS mapping copies the hit's form field unvalidated (no record is
dropped). -/
theorem c6_master_index_form_type (content : String) (s e : PDate) (f : Filing)
    (hf : f ∈ parse_full_index content s e) :
    f.form_type = "D" ∨ f.form_type = "D/A" := by
  obtain ⟨line, hline⟩ :=
    parseIndexLines_mem_source s e (pySplitChar '\n' content) false f hf
  exact parseIndexLine_form_type s e line f hline

/-- Witness for C6's amended claim: the record parsed from `pipeIndexDoc`. -/
theorem c6_master_index_form_type_witness :
    acmeFiling.form_type = "D" ∨ acmeFiling.form_type = "D/A" :=
  c6_master_index_form_type pipeIndexDoc ⟨2024, 1, 1⟩ ⟨2024, 12, 31⟩ acmeFiling
    (by decide)

/-- C5: the XML-link scan of fetch_form_d_details selects no link for any
reachable index page, because its first re.search call dies compiling the
variable-width lookbehind `(?<!xsl[^/]*)` (CPython re.error: look-behind
requires fixed-width pattern); the broad `except Exception` swallows the
error and the function returns None, so the preference order the claim
describes is never applied. -/
theorem c5_xml_link_scan_selects_nothing (page : String) :
    fetch_form_d_details_scan page = none := rfl

end SecFormD
